import Mathlib

/-!
# rviz_simulator: the scene set-up of `simulate.cpp`

A shallow embedding of `src/rviz_simulator/src/simulate.cpp`.

Conventions of the embedding

* A finite `double` is the rational number it denotes (`ℚ`). Copying a `double` is exact;
  the addition `position.x += distance_between_targets` rounds its exact sum to the nearest
  `double`, ties to even (`roundDouble`). Signed zeros, infinities and NaN have no
  counterpart: the parameter server is taken to hold finite values, and the sum of a finite
  `double` and an `int` never overflows.
* `int` values are `Int`; the only arithmetic on them is the loop increment `i++`, which runs
  only while `i < num_targets` and therefore cannot overflow.
* `std::vector<double>` is `List ℚ`. `operator[]` beyond the size is undefined behaviour in
  C++; it is the fault `Fault.outOfBounds` here.
* `ROS_ERROR` appends its message to a log.
* The components of a `std_msgs::ColorRGBA` are `float` in ROS; the narrowing of the loaded
  `double` values is not modelled, colours are only passed on.
* `main` is followed up to `applyChanges()`; `ros::spin()` is outside the embedding.
* The conversion `Eigen::Quaterniond(Matrix3d)` belongs to a library outside the repository.
  In `main` it is an argument, a function returning `double` components; its algorithm is
  also written out over an arbitrary ordered field with a square root
  (`eigenQuaternionOfMatrix`), to state what it yields in exact real arithmetic.
* `new Target(...)` followed by `addTargetToServer()` is recorded as one `Target` value
  holding the constructor's arguments; the result of `makeLineOfTargets` lists these values
  in the order of creation.
-/

namespace RvizSimulator

/-! ## Message types -/

/-- A `std_msgs::ColorRGBA`. -/
structure ColorRGBA where
  r : ℚ
  g : ℚ
  b : ℚ
  a : ℚ
deriving DecidableEq, Repr

/-- A `geometry_msgs::Point`. -/
structure Point where
  x : ℚ
  y : ℚ
  z : ℚ
deriving DecidableEq, Repr

/-- A `geometry_msgs::Quaternion`. -/
structure Quaternion where
  x : ℚ
  y : ℚ
  z : ℚ
  w : ℚ
deriving DecidableEq, Repr

/-- The two values of `visualization_msgs::InteractiveMarkerControl` used by `simulate.cpp`. -/
inductive InteractionMode where
  | MOVE_3D
  | BUTTON
deriving DecidableEq, Repr

/-- The arguments with which a `rviz_simulator::Target` is constructed (the class itself is
declared in `rviz_simulator/target.h`; the shared marker server argument is the global one
and is left out). -/
structure Target where
  frame_id : String
  name : String
  position : Point
  orientation : Quaternion
  color : ColorRGBA
  scale : ℚ
  interaction_mode : InteractionMode
deriving DecidableEq, Repr

/-! ## `double` arithmetic -/

/-- The integer nearest to `q`, the even one of the two when `q` lies halfway. -/
def roundHalfEven (q : ℚ) : Int :=
  if q - ⌊q⌋ < 1 / 2 then ⌊q⌋
  else if 1 / 2 < q - ⌊q⌋ then ⌊q⌋ + 1
  else if ⌊q⌋ % 2 = 0 then ⌊q⌋ else ⌊q⌋ + 1

/-- The IEEE 754 binary64 value nearest to `q` (round to nearest, ties to even): a
significand of 53 bits, that is a multiple of `2 ^ (e - 52)` where `2 ^ e ≤ |q| < 2 ^ (e + 1)`,
with `e` not below the least normal exponent `-1022`. Overflow to infinity (from `2 ^ 1024`
on) has no counterpart here. -/
def roundDouble (q : ℚ) : ℚ :=
  if q = 0 then 0
  else
    (roundHalfEven (q / 2 ^ (max (Int.log 2 |q|) (-1022) - 52)) : ℚ) *
      2 ^ (max (Int.log 2 |q|) (-1022) - 52)

/-! ## `makeLineOfTargets` -/

/-- The `for` loop of `makeLineOfTargets`, entered with loop variable `i`, running position
`position` and running colour `color`:

```
for (int i = first_target_number; i < num_targets; i++) {
  Target* target = new Target(world_frame_id, "tag" + std::to_string(i), position,
                              target_orientation, color, 0.1, server, MOVE_3D);
  target->addTargetToServer();
  position.x += distance_between_targets;
  color = regular_target_color;
}
```
-/
def lineLoop (world_frame_id : String) (num_targets : Int) (distance_between_targets : Int)
    (target_orientation : Quaternion) (regular_target_color : ColorRGBA)
    (i : Int) (position : Point) (color : ColorRGBA) : List Target :=
  if i < num_targets then
    { frame_id := world_frame_id, name := "tag" ++ toString i, position := position,
      orientation := target_orientation, color := color, scale := 1 / 10,
      interaction_mode := InteractionMode.MOVE_3D } ::
      lineLoop world_frame_id num_targets distance_between_targets target_orientation
        regular_target_color (i + 1)
        { position with x := roundDouble (position.x + (distance_between_targets : ℚ)) }
        regular_target_color
  else
    []
termination_by (num_targets - i).toNat
decreasing_by omega

/-- The function `makeLineOfTargets`: the targets it creates and adds to the server, in
order. -/
def makeLineOfTargets (world_frame_id : String) (num_targets : Int)
    (distance_between_targets : Int) (first_target_number : Int)
    (first_target_position : Point) (target_orientation : Quaternion)
    (world_origin_color : ColorRGBA) (regular_target_color : ColorRGBA) : List Target :=
  let color : ColorRGBA :=
    if first_target_number = 0 then world_origin_color else regular_target_color
  lineLoop world_frame_id num_targets distance_between_targets target_orientation
    regular_target_color first_target_number first_target_position color

/-! ## The parameter server and `std::vector` access -/

/-- What can go wrong in the C++ code without the code noticing: both are undefined
behaviour there. -/
inductive Fault where
  /-- The fault of `operator[]` with an index that is not below the vector's size. -/
  | outOfBounds
  /-- The fault of converting a `double` to `int` when the truncated value is not an `int`. -/
  | intConversion
deriving DecidableEq, Repr

/-- The parameter server behind a `ros::NodeHandle`, as `getParam` sees it: the value that a
variable of each type holds after `n.getParam(key, variable)`. A vector parameter that is
absent leaves the vector empty. -/
structure NodeHandle where
  getVector : String → List ℚ
  getDouble : String → ℚ
  getInt : String → Int
  getString : String → String

/-- The expression `v[i]` on a `std::vector<double>`. -/
def vectorAt (v : List ℚ) (i : Nat) : Except Fault ℚ :=
  match v[i]? with
  | some x => Except.ok x
  | none => Except.error Fault.outOfBounds

/-- The function `loadColor`. -/
def loadColor (n : NodeHandle) (color_name : String) : Except Fault ColorRGBA := do
  let color_vector := n.getVector color_name
  let r ← vectorAt color_vector 0
  let g ← vectorAt color_vector 1
  let b ← vectorAt color_vector 2
  let a ← vectorAt color_vector 3
  return { r := r, g := g, b := b, a := a }

/-- The function `loadPoint`. -/
def loadPoint (n : NodeHandle) (point_name : String) : Except Fault Point := do
  let point_vector := n.getVector point_name
  let x ← vectorAt point_vector 0
  let y ← vectorAt point_vector 1
  let z ← vectorAt point_vector 2
  return { x := x, y := y, z := z }

/-- The function `loadOrientation`. -/
def loadOrientation (n : NodeHandle) (quarternion_name : String) : Except Fault Quaternion := do
  let quaternion_vector := n.getVector quarternion_name
  let x ← vectorAt quaternion_vector 0
  let y ← vectorAt quaternion_vector 1
  let z ← vectorAt quaternion_vector 2
  let w ← vectorAt quaternion_vector 3
  return { x := x, y := y, z := z, w := w }

/-! ## `loadCameraProperties` -/

/-- Modelled from the spec: the record `rviz_simulator::CameraProperties`, declared in
`rviz_simulator/camera.h`, with the fields that `loadCameraProperties` assigns (image size,
camera name, focal lengths and principal point, distortion model kind, radial coefficients
`k1..k6`, tangential coefficients `p1`, `p2`, minimum corner separation). -/
structure CameraProperties where
  image_width : Int
  image_height : Int
  camera_name : String
  fx : ℚ
  fy : ℚ
  cx : ℚ
  cy : ℚ
  distortion_model : String
  k1 : ℚ
  k2 : ℚ
  k3 : ℚ
  k4 : ℚ
  k5 : ℚ
  k6 : ℚ
  p1 : ℚ
  p2 : ℚ
  min_distance_between_target_corners : ℚ
deriving DecidableEq, Repr

/-- The message of the only `ROS_ERROR` call of the file. -/
def unknownModelMessage : String := "Unknown camera distortion model specified!\n"

/-- The function `loadCameraProperties`. The argument `uninitialized` is the state of the
local `camera_properties` right after its declaration; the result is the returned record
together with the messages logged through `ROS_ERROR`. -/
def loadCameraProperties (n : NodeHandle) (uninitialized : CameraProperties) :
    Except Fault (CameraProperties × List String) := do
  let camera_properties := uninitialized
  let camera_properties :=
    { camera_properties with image_width := n.getInt "image_width" }
  let camera_properties :=
    { camera_properties with image_height := n.getInt "image_height" }
  let camera_properties :=
    { camera_properties with camera_name := n.getString "camera_name" }
  let camera_matrix := n.getVector "camera_matrix/data"
  let camera_properties := { camera_properties with fx := ← vectorAt camera_matrix 0 }
  let camera_properties := { camera_properties with fy := ← vectorAt camera_matrix 4 }
  let camera_properties := { camera_properties with cx := ← vectorAt camera_matrix 2 }
  let camera_properties := { camera_properties with cy := ← vectorAt camera_matrix 5 }
  let camera_properties :=
    { camera_properties with distortion_model := n.getString "distortion_model" }
  let distortion_coefficients := n.getVector "distortion_coefficients/data"
  if camera_properties.distortion_model = "plumb_bob" then
    let camera_properties :=
      { camera_properties with k1 := ← vectorAt distortion_coefficients 0 }
    let camera_properties :=
      { camera_properties with k2 := ← vectorAt distortion_coefficients 1 }
    let camera_properties :=
      { camera_properties with k3 := ← vectorAt distortion_coefficients 4 }
    let camera_properties := { camera_properties with k4 := 0 }
    let camera_properties := { camera_properties with k5 := 0 }
    let camera_properties := { camera_properties with k6 := 0 }
    let camera_properties :=
      { camera_properties with p1 := ← vectorAt distortion_coefficients 2 }
    let camera_properties :=
      { camera_properties with p2 := ← vectorAt distortion_coefficients 3 }
    let camera_properties :=
      { camera_properties with min_distance_between_target_corners := 30 }
    return (camera_properties, [])
  else
    let camera_properties :=
      { camera_properties with min_distance_between_target_corners := 30 }
    return (camera_properties, [unknownModelMessage])

/-! ## `main` -/

/-- The conversion of a `double` to `int`: the fractional part is discarded. -/
def truncate (d : ℚ) : Int :=
  if 0 ≤ d then ⌊d⌋ else ⌈d⌉

/-- The implicit conversion at a call that passes a `double` to an `int` parameter. -/
def doubleToInt (d : ℚ) : Except Fault Int :=
  let t := truncate d
  if -2147483648 ≤ t ∧ t ≤ 2147483647 then Except.ok t else Except.error Fault.intConversion

/-- The arguments with which the `rviz_simulator::Camera` is constructed (the class itself
is declared in `rviz_simulator/camera.h`). -/
structure Camera where
  frame_id : String
  name : String
  position : Point
  orientation : Quaternion
  color : ColorRGBA
  scale : ℚ
  interaction_mode : InteractionMode
  camera_properties : CameraProperties
deriving DecidableEq, Repr

/-- What `main` has built when it reaches `applyChanges()`. -/
structure Scene where
  targets : List Target
  camera : Camera
  log : List String
deriving DecidableEq, Repr

/-- The matrix filled by `rotation_matrix << -1, 0, 0, 0, 0, -1, 0, -1, 0;`. -/
def rotation_matrix : Matrix (Fin 3) (Fin 3) ℚ :=
  !![-1, 0, 0; 0, 0, -1; 0, -1, 0]

/-- The first part of `main`: from `// loading parameters` to the call of
`makeLineOfTargets`, whose `int` parameter `distance_between_targets` receives the `double`
read from the parameter server. The result lists the targets created. -/
def mainTargets (n : NodeHandle) : Except Fault (List Target) := do
  let world_frame_id := n.getString "/world_frame_id"
  let grey ← loadColor n "grey"
  let blue ← loadColor n "blue"
  let _target_scale := n.getDouble "target_scale"
  let _orange ← loadColor n "orange"
  let _camera_scale := n.getDouble "camera_scale"
  let starting_target_position ← loadPoint n "starting_target_position"
  let starting_target_orientation ← loadOrientation n "starting_target_orientation"
  let num_targets := n.getInt "num_targets_in_line"
  let distance_between_targets := n.getDouble "distance_between_targets"
  let first_target_number : Int := 0
  return makeLineOfTargets world_frame_id num_targets
    (← doubleToInt distance_between_targets) first_target_number starting_target_position
    starting_target_orientation blue grey

/-- The function `main` up to `applyChanges()`: the targets of `mainTargets`, then the
camera (the colour `orange`, loaded once in the C++ code before the targets are made, is a
function of the parameter server and is read again here). The argument `quaternionOfMatrix` stands for the library conversion
`Eigen::Quaterniond q(rotation_matrix)` followed by `tf::quaternionEigenToMsg`, which are
not part of this repository. -/
def main (n : NodeHandle) (uninitialized : CameraProperties)
    (quaternionOfMatrix : Matrix (Fin 3) (Fin 3) ℚ → Quaternion) : Except Fault Scene := do
  let targets ← mainTargets n
  let world_frame_id := n.getString "/world_frame_id"
  let orange ← loadColor n "orange"
  let (camera_properties, log) ← loadCameraProperties n uninitialized
  let starting_camera_postion ← loadPoint n "starting_camera_positon"
  let _starting_camera_orientation ← loadOrientation n "starting_camera_orientation"
  let starting_camera_orientation := quaternionOfMatrix rotation_matrix
  return { targets := targets
           camera :=
             { frame_id := world_frame_id, name := "camera",
               position := starting_camera_postion,
               orientation := starting_camera_orientation, color := orange, scale := 2 / 10,
               interaction_mode := InteractionMode.BUTTON,
               camera_properties := camera_properties }
           log := log }

/-! ## Sample inputs -/

/-- A parameter server with every key of `simulate.cpp` set; the spacing and the camera
vectors are arguments. -/
def sampleNode (distance : ℚ) (camera_matrix : List ℚ) (model : String)
    (coefficients : List ℚ) : NodeHandle where
  getVector := fun key =>
    if key = "grey" then [1 / 2, 1 / 2, 1 / 2, 1]
    else if key = "blue" then [0, 0, 1, 1]
    else if key = "orange" then [1, 1 / 2, 0, 1]
    else if key = "starting_target_position" then [0, 0, 0]
    else if key = "starting_target_orientation" then [0, 0, 0, 1]
    else if key = "starting_camera_positon" then [0, -1, 0]
    else if key = "starting_camera_orientation" then [0, 0, 0, 1]
    else if key = "camera_matrix/data" then camera_matrix
    else if key = "distortion_coefficients/data" then coefficients
    else []
  getDouble := fun key =>
    if key = "distance_between_targets" then distance
    else if key = "target_scale" then 1 / 10
    else 1 / 5
  getInt := fun key =>
    if key = "num_targets_in_line" then 3
    else if key = "image_width" then 640
    else 480
  getString := fun key =>
    if key = "/world_frame_id" then "world"
    else if key = "camera_name" then "camera"
    else model

/-- The sample parameter server with a spacing of `1/2` between targets. -/
def halfSpacingNode : NodeHandle :=
  sampleNode (1 / 2) [600, 0, 320, 0, 600, 240, 0, 0, 1] "plumb_bob"
    [1 / 10, -2 / 10, 1 / 100, -1 / 100, 5 / 100]

/-- The sample parameter server with a spacing of `-5/2` between targets. -/
def backwardNode : NodeHandle :=
  sampleNode (-5 / 2) [600, 0, 320, 0, 600, 240, 0, 0, 1] "plumb_bob"
    [1 / 10, -2 / 10, 1 / 100, -1 / 100, 5 / 100]

/-- The sample parameter server with a spacing of `3 * 10 ^ 9` between targets. -/
def wideSpacingNode : NodeHandle :=
  sampleNode 3000000000 [600, 0, 320, 0, 600, 240, 0, 0, 1] "plumb_bob"
    [1 / 10, -2 / 10, 1 / 100, -1 / 100, 5 / 100]

/-- The sample parameter server with a spacing of `1` and the first target at
`x = 2 ^ 53 = 9007199254740992`. -/
def farNode : NodeHandle :=
  { sampleNode 1 [600, 0, 320, 0, 600, 240, 0, 0, 1] "plumb_bob"
      [1 / 10, -2 / 10, 1 / 100, -1 / 100, 5 / 100] with
    getVector := fun key =>
      if key = "starting_target_position" then [9007199254740992, 0, 0]
      else
        (sampleNode 1 [600, 0, 320, 0, 600, 240, 0, 0, 1] "plumb_bob"
          [1 / 10, -2 / 10, 1 / 100, -1 / 100, 5 / 100]).getVector key }

/-- A record standing for the fields of a freshly declared `CameraProperties`. -/
def blankProperties : CameraProperties where
  image_width := 0
  image_height := 0
  camera_name := ""
  fx := 0
  fy := 0
  cx := 0
  cy := 0
  distortion_model := ""
  k1 := 7
  k2 := 7
  k3 := 7
  k4 := 7
  k5 := 7
  k6 := 7
  p1 := 7
  p2 := 7
  min_distance_between_target_corners := 0

/-! ## Closed form of the loop -/

/-- The target that the loop entered at `(i, position, color)` creates in its iteration
number `k` (counted from `0`). -/
def loopTarget (world_frame_id : String) (distance_between_targets : Int)
    (target_orientation : Quaternion) (regular_target_color : ColorRGBA)
    (i : Int) (position : Point) (color : ColorRGBA) (k : Nat) : Target :=
  { frame_id := world_frame_id, name := "tag" ++ toString (i + (k : Int)),
    position :=
      { position with
        x := (fun x => roundDouble (x + (distance_between_targets : ℚ)))^[k] position.x },
    orientation := target_orientation,
    color := if k = 0 then color else regular_target_color, scale := 1 / 10,
    interaction_mode := InteractionMode.MOVE_3D }

/-! ### Rounding -/

theorem roundDouble_zero : roundDouble 0 = 0 := by simp [roundDouble]

theorem roundHalfEven_intCast (z : Int) : roundHalfEven (z : ℚ) = z := by
  simp [roundHalfEven]

theorem log_two_eq (r : ℚ) (e : Int) (h1 : (2 : ℚ) ^ e ≤ r) (h2 : r < (2 : ℚ) ^ (e + 1)) :
    Int.log 2 r = e := by
  have hr : 0 < r := lt_of_lt_of_le (by positivity) h1
  have a : e ≤ Int.log 2 r := (Int.zpow_le_iff_le_log (by norm_num) hr).mp (by exact_mod_cast h1)
  have b : Int.log 2 r < e + 1 := (Int.lt_zpow_iff_log_lt (by norm_num) hr).mp (by exact_mod_cast h2)
  omega

theorem roundDouble_of_exponent (q : ℚ) (e : Int) (he : -1022 ≤ e) (h1 : (2 : ℚ) ^ e ≤ |q|)
    (h2 : |q| < (2 : ℚ) ^ (e + 1)) :
    roundDouble q = (roundHalfEven (q / 2 ^ (e - 52)) : ℚ) * 2 ^ (e - 52) := by
  have hq : q ≠ 0 := by
    intro h
    rw [h, abs_zero] at h1
    exact absurd h1 (not_le.mpr (by positivity))
  rw [roundDouble, if_neg hq, log_two_eq _ e h1 h2, max_eq_left he]

/-- The sum `2 ^ 53 + 1` lies halfway between two doubles and rounds to the even one. -/
theorem roundDouble_far : roundDouble (9007199254740992 + 1) = 9007199254740992 := by
  rw [roundDouble_of_exponent _ 53 (by norm_num) (by rw [abs_of_pos] <;> norm_num)
    (by rw [abs_of_pos] <;> norm_num)]
  have h : roundHalfEven ((9007199254740992 + 1) / 2 ^ ((53 : Int) - 52)) = 4503599627370496 := by
    have hf : ⌊((9007199254740992 + 1) / 2 ^ ((53 : Int) - 52) : ℚ)⌋ = 4503599627370496 := by
      rw [Int.floor_eq_iff]
      constructor <;> norm_num
    unfold roundHalfEven
    rw [hf]
    norm_num
  rw [h]
  norm_num

/-- The sum `2 ^ 53 + 3` lies halfway as well and rounds up, to `2 ^ 53 + 4`. -/
theorem roundDouble_tie_up : roundDouble (9007199254740992 + 3) = 9007199254740992 + 4 := by
  rw [roundDouble_of_exponent _ 53 (by norm_num) (by rw [abs_of_pos] <;> norm_num)
    (by rw [abs_of_pos] <;> norm_num)]
  have h : roundHalfEven ((9007199254740992 + 3) / 2 ^ ((53 : Int) - 52)) =
      4503599627370498 := by
    have hf : ⌊((9007199254740992 + 3) / 2 ^ ((53 : Int) - 52) : ℚ)⌋ = 4503599627370497 := by
      rw [Int.floor_eq_iff]
      constructor <;> norm_num
    unfold roundHalfEven
    rw [hf]
    norm_num
  rw [h]
  norm_num

/-- The `double` written `0.1` is `3602879701896397 / 2 ^ 55`. -/
theorem roundDouble_tenth : roundDouble (1 / 10) = 3602879701896397 / 36028797018963968 := by
  rw [roundDouble_of_exponent _ (-4) (by norm_num) (by rw [abs_of_pos] <;> norm_num)
    (by rw [abs_of_pos] <;> norm_num)]
  have h : roundHalfEven (1 / 10 / 2 ^ ((-4 : Int) - 52)) = 7205759403792794 := by
    have hf : ⌊(1 / 10 / 2 ^ ((-4 : Int) - 52) : ℚ)⌋ = 7205759403792793 := by
      rw [Int.floor_eq_iff]
      constructor <;> norm_num
    unfold roundHalfEven
    rw [hf]
    norm_num
  rw [h]
  norm_num

theorem iterate_add_exact (x t : ℚ) :
    ∀ k : Nat, (∀ j : Nat, j ≤ k → roundDouble (x + (j : ℚ) * t) = x + (j : ℚ) * t) →
      (fun y => roundDouble (y + t))^[k] x = x + (k : ℚ) * t := by
  intro k
  induction k with
  | zero => intro _; simp
  | succ k ih =>
    intro h
    rw [Function.iterate_succ_apply', ih (fun j hj => h j (Nat.le_succ_of_le hj))]
    have := h (k + 1) le_rfl
    push_cast at this ⊢
    rw [← this]
    congr 1
    ring

theorem iterate_add_zero (x : ℚ) (hx : roundDouble x = x) (k : Nat) :
    (fun y => roundDouble (y + ((0 : Int) : ℚ)))^[k] x = x := by
  induction k with
  | zero => rfl
  | succ k ih =>
    rw [Function.iterate_succ_apply', ih]
    simpa using hx

/-- Every integer of magnitude at most `2 ^ 53` is a `double`. -/
theorem roundDouble_intCast (z : Int) (hz : |z| ≤ 9007199254740992) :
    roundDouble (z : ℚ) = z := by
  by_cases h0 : z = 0
  · simp [h0, roundDouble]
  have hpos : (0 : ℚ) < |(z : ℚ)| := abs_pos.mpr (by exact_mod_cast h0)
  have hq : (z : ℚ) ≠ 0 := by exact_mod_cast h0
  have hz' : |(z : ℚ)| ≤ 9007199254740992 := by exact_mod_cast hz
  have hz1 : (1 : ℚ) ≤ |(z : ℚ)| := by
    have : (1 : Int) ≤ |z| := Int.one_le_abs h0
    exact_mod_cast this
  obtain ⟨e, he⟩ : ∃ e : Int, Int.log 2 |(z : ℚ)| = e := ⟨_, rfl⟩
  have h1 : (2 : ℚ) ^ e ≤ |(z : ℚ)| := by
    have := (Int.zpow_le_iff_le_log (b := 2) (by norm_num) hpos (x := e)).mpr (by omega)
    simpa using this
  have he0 : 0 ≤ e := by
    have := (Int.zpow_le_iff_le_log (b := 2) (by norm_num) hpos (x := 0)).mp (by simpa using hz1)
    omega
  have he53 : e ≤ 53 := by
    by_contra hcon
    have h54 : (54 : Int) ≤ Int.log 2 |(z : ℚ)| := by omega
    have := (Int.zpow_le_iff_le_log (b := 2) (by norm_num) hpos (x := 54)).mpr h54
    norm_num at this
    linarith
  rw [roundDouble, if_neg hq, he, max_eq_left (by omega)]
  by_cases h52 : e ≤ 52
  · obtain ⟨m, hm⟩ : ∃ m : Nat, (m : Int) = 52 - e := ⟨(52 - e).toNat, by omega⟩
    have hpow : (2 : ℚ) ^ (e - 52) = ((2 : ℚ) ^ m)⁻¹ := by
      have : e - 52 = -(m : Int) := by omega
      rw [this, zpow_neg, zpow_natCast]
    have hdiv : (z : ℚ) / 2 ^ (e - 52) = ((z * 2 ^ m : Int) : ℚ) := by
      rw [hpow]
      push_cast
      field_simp
    rw [hdiv, roundHalfEven_intCast, hpow]
    push_cast
    field_simp
  · have he' : e = 53 := by omega
    subst he'
    have hge : (9007199254740992 : ℚ) ≤ |(z : ℚ)| := by
      have := h1
      norm_num at this
      exact this
    have habs : |z| = 9007199254740992 := by
      have : (9007199254740992 : Int) ≤ |z| := by exact_mod_cast hge
      omega
    have hdiv : (z : ℚ) / 2 ^ ((53 : Int) - 52) = ((z / 2 : Int) : ℚ) := by
      rcases abs_eq (by norm_num : (0 : Int) ≤ 9007199254740992) |>.mp habs with h | h <;>
        rw [h] <;> norm_num
    rw [hdiv, roundHalfEven_intCast]
    rcases abs_eq (by norm_num : (0 : Int) ≤ 9007199254740992) |>.mp habs with h | h <;>
      rw [h] <;> norm_num

/-! ### The loop -/

theorem lineLoop_done (w : String) (n d : Int) (o : Quaternion) (reg : ColorRGBA)
    (i : Int) (pos : Point) (col : ColorRGBA) (h : ¬ i < n) :
    lineLoop w n d o reg i pos col = [] := by
  rw [lineLoop, if_neg h]

theorem lineLoop_step (w : String) (n d : Int) (o : Quaternion) (reg : ColorRGBA)
    (i : Int) (pos : Point) (col : ColorRGBA) (h : i < n) :
    lineLoop w n d o reg i pos col =
      { frame_id := w, name := "tag" ++ toString i, position := pos, orientation := o,
        color := col, scale := 1 / 10, interaction_mode := InteractionMode.MOVE_3D } ::
        lineLoop w n d o reg (i + 1) { pos with x := roundDouble (pos.x + (d : ℚ)) } reg := by
  rw [lineLoop, if_pos h]

theorem lineLoop_eq_map (w : String) (n d : Int) (o : Quaternion) (reg : ColorRGBA) :
    ∀ (m : Nat) (i : Int) (pos : Point) (col : ColorRGBA), (n - i).toNat = m →
      lineLoop w n d o reg i pos col = (List.range m).map (loopTarget w d o reg i pos col) := by
  intro m
  induction m with
  | zero =>
    intro i pos col hm
    have h : ¬ i < n := by omega
    simp [lineLoop_done w n d o reg i pos col h]
  | succ m ih =>
    intro i pos col hm
    have h : i < n := by omega
    have hm1 : (n - (i + 1)).toNat = m := by omega
    rw [lineLoop_step w n d o reg i pos col h, ih (i + 1) _ reg hm1, List.range_succ_eq_map]
    simp only [List.map_cons, List.map_map]
    congr 1
    · simp [loopTarget]
    · apply List.map_congr_left
      intro k _
      simp only [loopTarget, Function.comp]
      have e1 : i + 1 + (k : Int) = i + ((k + 1 : Nat) : Int) := by push_cast; ring
      simp [e1]

theorem makeLineOfTargets_eq_map (w : String) (n d first : Int) (p0 : Point) (o : Quaternion)
    (origin reg : ColorRGBA) :
    makeLineOfTargets w n d first p0 o origin reg =
      (List.range (n - first).toNat).map
        (loopTarget w d o reg first p0 (if first = 0 then origin else reg)) := by
  unfold makeLineOfTargets
  exact lineLoop_eq_map w n d o reg _ first p0 _ rfl

/-! ## Lines of targets -/

/-- C1: for every `count ≥ 1`, `makeLineOfTargets` called with `first_target_number = 0`
creates exactly `count` targets; the one created in position `k` of the sequence is named
`"tag" ++ k` (so `tag0`, `tag1`, ..., in order), the first one (`tag0`) is given the
world-origin colour and every other one the regular-target colour. -/
theorem makeLineOfTargets_from_zero (w : String) (count d : Int) (p0 : Point)
    (o : Quaternion) (origin reg : ColorRGBA) (h : 1 ≤ count) :
    ((makeLineOfTargets w count d 0 p0 o origin reg).length : Int) = count ∧
    (makeLineOfTargets w count d 0 p0 o origin reg).map Target.name =
      (List.range count.toNat).map (fun k => "tag" ++ toString k) ∧
    (makeLineOfTargets w count d 0 p0 o origin reg).map Target.color =
      origin :: List.replicate (count.toNat - 1) reg ∧
    ((makeLineOfTargets w count d 0 p0 o origin reg)[0]?).map
      (fun t => (t.name, t.color)) = some ("tag0", origin) := by
  rw [makeLineOfTargets_eq_map]
  obtain ⟨m, rfl⟩ : ∃ m : Nat, count = ((m + 1 : Nat) : Int) := ⟨(count - 1).toNat, by omega⟩
  have hm : (((m + 1 : Nat) : Int) - 0).toNat = m + 1 := by omega
  rw [hm]
  refine ⟨by simp, ?_, ?_, ?_⟩
  · simp only [List.map_map, Int.toNat_ofNat]
    apply List.map_congr_left
    intro k _
    simp only [Function.comp, loopTarget, zero_add]
    rfl
  · rw [List.range_succ_eq_map]
    simp only [List.map_map, List.map_cons, Int.toNat_ofNat, Nat.add_sub_cancel]
    congr 1
    apply List.ext_getElem
    · simp
    · intro k h1 h2
      simp [loopTarget]
  · simp [List.range_succ_eq_map, loopTarget]
    rfl

/-- Witness of C1: three targets. -/
theorem makeLineOfTargets_from_zero_witness :
    (1 : Int) ≤ 3 ∧
    ((makeLineOfTargets "world" 3 2 0 ⟨0, 0, 0⟩ ⟨0, 0, 0, 1⟩ ⟨0, 0, 1, 1⟩
        ⟨1, 1, 1, 1⟩).length : Int) = 3 ∧
    (makeLineOfTargets "world" 3 2 0 ⟨0, 0, 0⟩ ⟨0, 0, 0, 1⟩ ⟨0, 0, 1, 1⟩
        ⟨1, 1, 1, 1⟩).map Target.name =
      (List.range (3 : Int).toNat).map (fun k => "tag" ++ toString k) ∧
    (makeLineOfTargets "world" 3 2 0 ⟨0, 0, 0⟩ ⟨0, 0, 0, 1⟩ ⟨0, 0, 1, 1⟩
        ⟨1, 1, 1, 1⟩).map Target.color =
      (⟨0, 0, 1, 1⟩ : ColorRGBA) :: List.replicate ((3 : Int).toNat - 1) ⟨1, 1, 1, 1⟩ ∧
    ((makeLineOfTargets "world" 3 2 0 ⟨0, 0, 0⟩ ⟨0, 0, 0, 1⟩ ⟨0, 0, 1, 1⟩
        ⟨1, 1, 1, 1⟩)[0]?).map (fun t => (t.name, t.color)) =
      some ("tag0", (⟨0, 0, 1, 1⟩ : ColorRGBA)) :=
  ⟨by decide, makeLineOfTargets_from_zero "world" 3 2 ⟨0, 0, 0⟩ ⟨0, 0, 0, 1⟩ ⟨0, 0, 1, 1⟩
    ⟨1, 1, 1, 1⟩ (by decide)⟩

/-- C7: whenever `count ≤ first_target_number`, `makeLineOfTargets` creates no target (and,
being a total function, raises no error). -/
theorem makeLineOfTargets_empty (w : String) (count d first : Int) (p0 : Point)
    (o : Quaternion) (origin reg : ColorRGBA) (h : count ≤ first) :
    makeLineOfTargets w count d first p0 o origin reg = [] := by
  unfold makeLineOfTargets
  exact lineLoop_done w count d o reg first p0 _ (by omega)

/-- Witness of C7: a count of `-2` with first target number `0`. -/
theorem makeLineOfTargets_empty_witness :
    (-2 : Int) ≤ 0 ∧
    makeLineOfTargets "world" (-2) 1 0 ⟨0, 0, 0⟩ ⟨0, 0, 0, 1⟩ ⟨0, 0, 1, 1⟩ ⟨1, 1, 1, 1⟩ = [] :=
  ⟨by decide, makeLineOfTargets_empty "world" (-2) 1 0 ⟨0, 0, 0⟩ ⟨0, 0, 0, 1⟩ ⟨0, 0, 1, 1⟩
    ⟨1, 1, 1, 1⟩ (by decide)⟩

/-- C9: for every count and every `first_target_number ≥ 0`, the call creates
`count - first_target_number` targets (none when that is negative); the `k`-th of them has
index `first_target_number + k`, is named after that index, and has the world-origin colour
when its index is `0` and the regular-target colour otherwise (so, the two colours being
different, it has the world-origin colour if and only if its index is `0`); in particular
with `first_target_number > 0` every target has the regular-target colour. -/
theorem makeLineOfTargets_origin_iff_index_zero (w : String) (count d first : Int)
    (p0 : Point) (o : Quaternion) (origin reg : ColorRGBA) (h : 0 ≤ first) :
    (makeLineOfTargets w count d first p0 o origin reg).length = (count - first).toNat ∧
    (∀ (k : Nat) (t : Target),
      (makeLineOfTargets w count d first p0 o origin reg)[k]? = some t →
        t.name = "tag" ++ toString (first + (k : Int)) ∧
        (first + (k : Int) = 0 → t.color = origin) ∧
        (first + (k : Int) ≠ 0 → t.color = reg) ∧
        (origin ≠ reg → (t.color = origin ↔ first + (k : Int) = 0))) ∧
    (0 < first → ∀ t ∈ makeLineOfTargets w count d first p0 o origin reg, t.color = reg) := by
  rw [makeLineOfTargets_eq_map]
  refine ⟨by simp, ?_, ?_⟩
  · intro k t hk
    rw [List.getElem?_map] at hk
    rcases hr : (List.range (count - first).toNat)[k]? with _ | j
    · rw [hr] at hk
      simp at hk
    · rw [hr] at hk
      have hj : j = k := by
        rw [List.getElem?_eq_some_iff] at hr
        obtain ⟨hlt, hv⟩ := hr
        simpa using hv.symm
      subst hj
      simp only [Option.map_some', Option.some.injEq] at hk
      subst hk
      have hz : first + (j : Int) = 0 ↔ (j = 0 ∧ first = 0) := by omega
      refine ⟨rfl, ?_, ?_, ?_⟩
      · intro h0
        obtain ⟨hj0, hf0⟩ := hz.mp h0
        simp [loopTarget, hj0, hf0]
      · intro h0
        by_cases hj0 : j = 0
        · have hf0 : first ≠ 0 := fun hf => h0 (hz.mpr ⟨hj0, hf⟩)
          simp [loopTarget, hj0, hf0]
        · simp [loopTarget, hj0]
      · intro hne
        constructor
        · intro hc
          by_contra h0
          by_cases hj0 : j = 0
          · have hf0 : first ≠ 0 := fun hf => h0 (hz.mpr ⟨hj0, hf⟩)
            simp [loopTarget, hj0, hf0] at hc
            exact hne hc.symm
          · simp [loopTarget, hj0] at hc
            exact hne hc.symm
        · intro h0
          obtain ⟨hj0, hf0⟩ := hz.mp h0
          simp [loopTarget, hj0, hf0]
  · intro hpos t ht
    have hf0 : first ≠ 0 := by omega
    simp only [List.mem_map, List.mem_range] at ht
    obtain ⟨k, _, rfl⟩ := ht
    simp [loopTarget, hf0]

/-- Witness of C9: a line continued from target number `1` up to count `3`. -/
theorem makeLineOfTargets_origin_iff_index_zero_witness :
    (0 : Int) ≤ 1 ∧
    ((makeLineOfTargets "world" 3 2 1 ⟨0, 0, 0⟩ ⟨0, 0, 0, 1⟩ ⟨0, 0, 1, 1⟩
      ⟨1, 1, 1, 1⟩).length = ((3 : Int) - 1).toNat ∧
    (∀ (k : Nat) (t : Target),
      (makeLineOfTargets "world" 3 2 1 ⟨0, 0, 0⟩ ⟨0, 0, 0, 1⟩ ⟨0, 0, 1, 1⟩
        ⟨1, 1, 1, 1⟩)[k]? = some t →
        t.name = "tag" ++ toString ((1 : Int) + (k : Int)) ∧
        ((1 : Int) + (k : Int) = 0 → t.color = ⟨0, 0, 1, 1⟩) ∧
        ((1 : Int) + (k : Int) ≠ 0 → t.color = ⟨1, 1, 1, 1⟩) ∧
        ((⟨0, 0, 1, 1⟩ : ColorRGBA) ≠ ⟨1, 1, 1, 1⟩ →
          (t.color = ⟨0, 0, 1, 1⟩ ↔ (1 : Int) + (k : Int) = 0))) ∧
    ((0 : Int) < 1 → ∀ t ∈ makeLineOfTargets "world" 3 2 1 ⟨0, 0, 0⟩ ⟨0, 0, 0, 1⟩
      ⟨0, 0, 1, 1⟩ ⟨1, 1, 1, 1⟩, t.color = ⟨1, 1, 1, 1⟩)) :=
  ⟨by decide,
    makeLineOfTargets_origin_iff_index_zero "world" 3 2 1 ⟨0, 0, 0⟩ ⟨0, 0, 0, 1⟩ ⟨0, 0, 1, 1⟩
      ⟨1, 1, 1, 1⟩ (by decide)⟩

/-! ## Camera properties -/

theorem exists_six_of_length (v : List ℚ) (h : 6 ≤ v.length) :
    ∃ a b c d e f rest, v = a :: b :: c :: d :: e :: f :: rest := by
  match v, h with
  | a :: b :: c :: d :: e :: f :: rest, _ => exact ⟨a, b, c, d, e, f, rest, rfl⟩

theorem exists_five_of_length (v : List ℚ) (h : 5 ≤ v.length) :
    ∃ a b c d e rest, v = a :: b :: c :: d :: e :: rest := by
  match v, h with
  | a :: b :: c :: d :: e :: rest, _ => exact ⟨a, b, c, d, e, rest, rfl⟩

/-- The record returned for a distortion model other than `plumb_bob`. -/
theorem loadCameraProperties_unknown_model (n : NodeHandle) (u : CameraProperties)
    (a b c d e f : ℚ) (rest : List ℚ)
    (hm : n.getVector "camera_matrix/data" = a :: b :: c :: d :: e :: f :: rest)
    (hk : n.getString "distortion_model" ≠ "plumb_bob") :
    loadCameraProperties n u =
      Except.ok
        ({ u with
            image_width := n.getInt "image_width", image_height := n.getInt "image_height",
            camera_name := n.getString "camera_name", fx := a, fy := e, cx := c, cy := f,
            distortion_model := n.getString "distortion_model",
            min_distance_between_target_corners := 30 },
          [unknownModelMessage]) := by
  simp [loadCameraProperties, hm, hk, vectorAt, bind, Except.bind, pure, Except.pure]

/-- The record returned for the distortion model `plumb_bob`. -/
theorem loadCameraProperties_plumb_bob (n : NodeHandle) (u : CameraProperties)
    (a b c d e f : ℚ) (rest : List ℚ) (c0 c1 c2 c3 c4 : ℚ) (crest : List ℚ)
    (hm : n.getVector "camera_matrix/data" = a :: b :: c :: d :: e :: f :: rest)
    (hk : n.getString "distortion_model" = "plumb_bob")
    (hc : n.getVector "distortion_coefficients/data" = c0 :: c1 :: c2 :: c3 :: c4 :: crest) :
    loadCameraProperties n u =
      Except.ok
        ({ u with
            image_width := n.getInt "image_width", image_height := n.getInt "image_height",
            camera_name := n.getString "camera_name", fx := a, fy := e, cx := c, cy := f,
            distortion_model := "plumb_bob", k1 := c0, k2 := c1, k3 := c4, k4 := 0, k5 := 0,
            k6 := 0, p1 := c2, p2 := c3, min_distance_between_target_corners := 30 },
          []) := by
  simp [loadCameraProperties, hm, hk, hc, vectorAt, bind, Except.bind, pure, Except.pure]

/-- A short camera matrix: `camera_matrix[5]` or an earlier access is out of range. -/
theorem loadCameraProperties_short_matrix (n : NodeHandle) (u : CameraProperties)
    (hm : (n.getVector "camera_matrix/data").length < 6) :
    loadCameraProperties n u = Except.error Fault.outOfBounds := by
  generalize hv : n.getVector "camera_matrix/data" = v at hm
  match v, hm with
  | [], _ => simp [loadCameraProperties, hv, vectorAt, bind, Except.bind]
  | [_], _ => simp [loadCameraProperties, hv, vectorAt, bind, Except.bind]
  | [_, _], _ => simp [loadCameraProperties, hv, vectorAt, bind, Except.bind]
  | [_, _, _], _ => simp [loadCameraProperties, hv, vectorAt, bind, Except.bind]
  | [_, _, _, _], _ => simp [loadCameraProperties, hv, vectorAt, bind, Except.bind]
  | [_, _, _, _, _], _ => simp [loadCameraProperties, hv, vectorAt, bind, Except.bind]

/-- C3, amended: for every `camera_matrix/data` vector of exactly 9 elements, and a
coefficient vector of at least 5 elements when the model is `plumb_bob`,
`loadCameraProperties` returns a record with `fx = m[0]`, `fy = m[4]`, `cx = m[2]`,
`cy = m[5]`, whatever the distortion model is. -/
theorem loadCameraProperties_intrinsics (n : NodeHandle) (u : CameraProperties)
    (m0 m1 m2 m3 m4 m5 m6 m7 m8 : ℚ)
    (hm : n.getVector "camera_matrix/data" = [m0, m1, m2, m3, m4, m5, m6, m7, m8])
    (hc : n.getString "distortion_model" = "plumb_bob" →
      5 ≤ (n.getVector "distortion_coefficients/data").length) :
    ∃ r log, loadCameraProperties n u = Except.ok (r, log) ∧
      r.fx = m0 ∧ r.fy = m4 ∧ r.cx = m2 ∧ r.cy = m5 := by
  by_cases hk : n.getString "distortion_model" = "plumb_bob"
  · obtain ⟨c0, c1, c2, c3, c4, crest, hcv⟩ := exists_five_of_length _ (hc hk)
    exact ⟨_, _, loadCameraProperties_plumb_bob n u m0 m1 m2 m3 m4 m5 [m6, m7, m8]
      c0 c1 c2 c3 c4 crest hm hk hcv, rfl, rfl, rfl, rfl⟩
  · exact ⟨_, _, loadCameraProperties_unknown_model n u m0 m1 m2 m3 m4 m5 [m6, m7, m8] hm hk,
      rfl, rfl, rfl, rfl⟩

/-- Witness of C3: the matrix `[600,0,320, 0,600,240, 0,0,1]` with a model that is not
`plumb_bob` gives `fx = 600`, `fy = 600`, `cx = 320`, `cy = 240`. -/
theorem loadCameraProperties_intrinsics_witness :
    ∃ r log,
      loadCameraProperties
        (sampleNode 1 [600, 0, 320, 0, 600, 240, 0, 0, 1] "rational_polynomial" [])
        blankProperties = Except.ok (r, log) ∧
      r.fx = 600 ∧ r.fy = 600 ∧ r.cx = 320 ∧ r.cy = 240 :=
  loadCameraProperties_intrinsics
    (sampleNode 1 [600, 0, 320, 0, 600, 240, 0, 0, 1] "rational_polynomial" [])
    blankProperties 600 0 320 0 600 240 0 0 1 (by simp [sampleNode]) (by simp [sampleNode])

/-- C3 as stated fails: with a 9-element camera matrix, the model `plumb_bob` and an empty
coefficient vector, `distortion_coefficients[0]` is out of range and no record is
returned. -/
theorem loadCameraProperties_intrinsics_counterexample :
    ((sampleNode 1 [600, 0, 320, 0, 600, 240, 0, 0, 1] "plumb_bob" []).getVector
      "camera_matrix/data").length = 9 ∧
    loadCameraProperties (sampleNode 1 [600, 0, 320, 0, 600, 240, 0, 0, 1] "plumb_bob" [])
      blankProperties = Except.error Fault.outOfBounds ∧
    ¬ ∃ r log,
      loadCameraProperties (sampleNode 1 [600, 0, 320, 0, 600, 240, 0, 0, 1] "plumb_bob" [])
        blankProperties = Except.ok (r, log) ∧
      r.fx = 600 ∧ r.fy = 600 ∧ r.cx = 320 ∧ r.cy = 240 := by
  have h : loadCameraProperties
      (sampleNode 1 [600, 0, 320, 0, 600, 240, 0, 0, 1] "plumb_bob" []) blankProperties =
      Except.error Fault.outOfBounds := by
    simp [loadCameraProperties, sampleNode, vectorAt, bind, Except.bind]
  refine ⟨by simp [sampleNode], h, ?_⟩
  rintro ⟨r, log, hr, _⟩
  rw [h] at hr
  cases hr

/-- C4, amended: for every configuration with `distortion_model = "plumb_bob"`, a
coefficient vector `c` of at least 5 elements and a camera matrix of at least 6 elements,
`loadCameraProperties` returns a record with `k1 = c[0]`, `k2 = c[1]`, `p1 = c[2]`,
`p2 = c[3]`, `k3 = c[4]` and `k4 = k5 = k6 = 0`. -/
theorem loadCameraProperties_plumb_bob_coefficients (n : NodeHandle) (u : CameraProperties)
    (c0 c1 c2 c3 c4 : ℚ) (crest : List ℚ)
    (hk : n.getString "distortion_model" = "plumb_bob")
    (hc : n.getVector "distortion_coefficients/data" = c0 :: c1 :: c2 :: c3 :: c4 :: crest)
    (hm : 6 ≤ (n.getVector "camera_matrix/data").length) :
    ∃ r log, loadCameraProperties n u = Except.ok (r, log) ∧
      r.k1 = c0 ∧ r.k2 = c1 ∧ r.p1 = c2 ∧ r.p2 = c3 ∧ r.k3 = c4 ∧
      r.k4 = 0 ∧ r.k5 = 0 ∧ r.k6 = 0 := by
  obtain ⟨a, b, c, d, e, f, rest, hmv⟩ := exists_six_of_length _ hm
  exact ⟨_, _, loadCameraProperties_plumb_bob n u a b c d e f rest c0 c1 c2 c3 c4 crest
    hmv hk hc, rfl, rfl, rfl, rfl, rfl, rfl, rfl, rfl⟩

/-- Witness of C4: the coefficients `[0.1, -0.2, 0.01, -0.01, 0.05]`. -/
theorem loadCameraProperties_plumb_bob_coefficients_witness :
    ∃ r log,
      loadCameraProperties
        (sampleNode 1 [600, 0, 320, 0, 600, 240, 0, 0, 1] "plumb_bob"
          [1 / 10, -2 / 10, 1 / 100, -1 / 100, 5 / 100])
        blankProperties = Except.ok (r, log) ∧
      r.k1 = 1 / 10 ∧ r.k2 = -2 / 10 ∧ r.p1 = 1 / 100 ∧ r.p2 = -1 / 100 ∧ r.k3 = 5 / 100 ∧
      r.k4 = 0 ∧ r.k5 = 0 ∧ r.k6 = 0 :=
  loadCameraProperties_plumb_bob_coefficients
    (sampleNode 1 [600, 0, 320, 0, 600, 240, 0, 0, 1] "plumb_bob"
      [1 / 10, -2 / 10, 1 / 100, -1 / 100, 5 / 100])
    blankProperties (1 / 10) (-2 / 10) (1 / 100) (-1 / 100) (5 / 100) []
    (by simp [sampleNode]) (by simp [sampleNode]) (by simp [sampleNode])

/-- C4 as stated fails: with the model `plumb_bob`, five coefficients and an empty camera
matrix, `camera_matrix[0]` is out of range and no record is returned. -/
theorem loadCameraProperties_plumb_bob_coefficients_counterexample :
    (sampleNode 1 [] "plumb_bob" [1 / 10, -2 / 10, 1 / 100, -1 / 100, 5 / 100]).getString
      "distortion_model" = "plumb_bob" ∧
    5 ≤ ((sampleNode 1 [] "plumb_bob" [1 / 10, -2 / 10, 1 / 100, -1 / 100, 5 / 100]).getVector
      "distortion_coefficients/data").length ∧
    loadCameraProperties
      (sampleNode 1 [] "plumb_bob" [1 / 10, -2 / 10, 1 / 100, -1 / 100, 5 / 100])
      blankProperties = Except.error Fault.outOfBounds := by
  refine ⟨by simp [sampleNode], by simp [sampleNode], ?_⟩
  exact loadCameraProperties_short_matrix _ _ (by simp [sampleNode])

/-- C5, amended: for every distortion model string other than `"plumb_bob"` (and a camera
matrix of at least 6 elements), `loadCameraProperties` logs the message "Unknown camera
distortion model specified!" and returns a camera-property record in the normal way, with
no error value for the caller; it assigns none of `k1..k6`, `p1`, `p2`, which keep what the
freshly declared record held, and it does set the model string and the minimum corner
distance 30. -/
theorem loadCameraProperties_unsupported_model (n : NodeHandle) (u : CameraProperties)
    (hk : n.getString "distortion_model" ≠ "plumb_bob")
    (hm : 6 ≤ (n.getVector "camera_matrix/data").length) :
    ∃ r, loadCameraProperties n u = Except.ok (r, [unknownModelMessage]) ∧
      r.k1 = u.k1 ∧ r.k2 = u.k2 ∧ r.k3 = u.k3 ∧ r.k4 = u.k4 ∧ r.k5 = u.k5 ∧ r.k6 = u.k6 ∧
      r.p1 = u.p1 ∧ r.p2 = u.p2 ∧
      r.distortion_model = n.getString "distortion_model" ∧
      r.min_distance_between_target_corners = 30 := by
  obtain ⟨a, b, c, d, e, f, rest, hmv⟩ := exists_six_of_length _ hm
  exact ⟨_, loadCameraProperties_unknown_model n u a b c d e f rest hmv hk,
    rfl, rfl, rfl, rfl, rfl, rfl, rfl, rfl, rfl, rfl⟩

/-- Witness of C5: the model `rational_polynomial`. -/
theorem loadCameraProperties_unsupported_model_witness :
    ∃ r,
      loadCameraProperties
        (sampleNode 1 [600, 0, 320, 0, 600, 240, 0, 0, 1] "rational_polynomial"
          [1 / 10, -2 / 10, 1 / 100, -1 / 100, 5 / 100, 0, 0, 0])
        blankProperties = Except.ok (r, [unknownModelMessage]) ∧
      r.k1 = blankProperties.k1 ∧ r.k2 = blankProperties.k2 ∧ r.k3 = blankProperties.k3 ∧
      r.k4 = blankProperties.k4 ∧ r.k5 = blankProperties.k5 ∧ r.k6 = blankProperties.k6 ∧
      r.p1 = blankProperties.p1 ∧ r.p2 = blankProperties.p2 ∧
      r.distortion_model =
        (sampleNode 1 [600, 0, 320, 0, 600, 240, 0, 0, 1] "rational_polynomial"
          [1 / 10, -2 / 10, 1 / 100, -1 / 100, 5 / 100, 0, 0, 0]).getString
          "distortion_model" ∧
      r.min_distance_between_target_corners = 30 :=
  loadCameraProperties_unsupported_model
    (sampleNode 1 [600, 0, 320, 0, 600, 240, 0, 0, 1] "rational_polynomial"
      [1 / 10, -2 / 10, 1 / 100, -1 / 100, 5 / 100, 0, 0, 0])
    blankProperties (by simp [sampleNode]) (by simp [sampleNode])

/-- C5 as stated fails: for the model `rational_polynomial` the function does not fail; it
returns a record in the normal way (here with `fx = 600`), the only trace of the unknown
model being the logged message, and `main` goes on to construct the camera from it. -/
theorem loadCameraProperties_unsupported_model_counterexample :
    (sampleNode 1 [600, 0, 320, 0, 600, 240, 0, 0, 1] "rational_polynomial"
      [1 / 10, -2 / 10, 1 / 100, -1 / 100, 5 / 100, 0, 0, 0]).getString "distortion_model" ≠
      "plumb_bob" ∧
    loadCameraProperties
      (sampleNode 1 [600, 0, 320, 0, 600, 240, 0, 0, 1] "rational_polynomial"
        [1 / 10, -2 / 10, 1 / 100, -1 / 100, 5 / 100, 0, 0, 0])
      blankProperties =
      Except.ok
        ({ blankProperties with
            image_width := 640, image_height := 480, camera_name := "camera", fx := 600,
            fy := 600, cx := 320, cy := 240, distortion_model := "rational_polynomial",
            min_distance_between_target_corners := 30 },
          [unknownModelMessage]) ∧
    (main
      (sampleNode 1 [600, 0, 320, 0, 600, 240, 0, 0, 1] "rational_polynomial"
        [1 / 10, -2 / 10, 1 / 100, -1 / 100, 5 / 100, 0, 0, 0])
      blankProperties (fun _ => ⟨0, 0, 0, 1⟩)).toOption.map
        (fun scene => scene.camera.camera_properties.distortion_model) =
      some "rational_polynomial" := by
  refine ⟨by simp [sampleNode], ?_, ?_⟩
  · simp [loadCameraProperties, sampleNode, vectorAt, bind, Except.bind, pure, Except.pure]
  · simp [main, mainTargets, loadColor, loadPoint, loadOrientation, doubleToInt, truncate,
      loadCameraProperties, sampleNode, vectorAt, bind, Except.bind, pure, Except.pure,
      Except.toOption]

/-- C6, amended: `loadCameraProperties` has no length check. A `camera_matrix/data` vector
of at least 6 elements, so also one of 6, 7 or 8, is accepted like one of 9: provided the
model is not `plumb_bob` or there are at least 5 coefficients, no access is out of range and
the function returns, in the normal way, a record built from the vector, with `fx = m[0]`,
`fy = m[4]`, `cx = m[2]`, `cy = m[5]`. -/
theorem loadCameraProperties_accepts_short_matrix (n : NodeHandle) (u : CameraProperties)
    (hm : 6 ≤ (n.getVector "camera_matrix/data").length)
    (hc : n.getString "distortion_model" = "plumb_bob" →
      5 ≤ (n.getVector "distortion_coefficients/data").length) :
    ∃ r log, loadCameraProperties n u = Except.ok (r, log) ∧
      some r.fx = (n.getVector "camera_matrix/data")[0]? ∧
      some r.fy = (n.getVector "camera_matrix/data")[4]? ∧
      some r.cx = (n.getVector "camera_matrix/data")[2]? ∧
      some r.cy = (n.getVector "camera_matrix/data")[5]? := by
  obtain ⟨a, b, c, d, e, f, rest, hmv⟩ := exists_six_of_length _ hm
  by_cases hk : n.getString "distortion_model" = "plumb_bob"
  · obtain ⟨c0, c1, c2, c3, c4, crest, hcv⟩ := exists_five_of_length _ (hc hk)
    refine ⟨_, _, loadCameraProperties_plumb_bob n u a b c d e f rest
      c0 c1 c2 c3 c4 crest hmv hk hcv, ?_, ?_, ?_, ?_⟩ <;> simp [hmv]
  · refine ⟨_, _, loadCameraProperties_unknown_model n u a b c d e f rest hmv hk,
      ?_, ?_, ?_, ?_⟩ <;> simp [hmv]

/-- Witness of C6: a camera matrix of 6 elements. -/
theorem loadCameraProperties_accepts_short_matrix_witness :
    ∃ r log,
      loadCameraProperties
        (sampleNode 1 [600, 0, 320, 0, 600, 240] "plumb_bob"
          [1 / 10, -2 / 10, 1 / 100, -1 / 100, 5 / 100])
        blankProperties = Except.ok (r, log) ∧
      some r.fx =
        ((sampleNode 1 [600, 0, 320, 0, 600, 240] "plumb_bob"
          [1 / 10, -2 / 10, 1 / 100, -1 / 100, 5 / 100]).getVector "camera_matrix/data")[0]? ∧
      some r.fy =
        ((sampleNode 1 [600, 0, 320, 0, 600, 240] "plumb_bob"
          [1 / 10, -2 / 10, 1 / 100, -1 / 100, 5 / 100]).getVector "camera_matrix/data")[4]? ∧
      some r.cx =
        ((sampleNode 1 [600, 0, 320, 0, 600, 240] "plumb_bob"
          [1 / 10, -2 / 10, 1 / 100, -1 / 100, 5 / 100]).getVector "camera_matrix/data")[2]? ∧
      some r.cy =
        ((sampleNode 1 [600, 0, 320, 0, 600, 240] "plumb_bob"
          [1 / 10, -2 / 10, 1 / 100, -1 / 100, 5 / 100]).getVector "camera_matrix/data")[5]? :=
  loadCameraProperties_accepts_short_matrix
    (sampleNode 1 [600, 0, 320, 0, 600, 240] "plumb_bob"
      [1 / 10, -2 / 10, 1 / 100, -1 / 100, 5 / 100])
    blankProperties (by simp [sampleNode]) (by simp [sampleNode])

/-- C6 as stated fails: a camera matrix of 6 elements (fewer than 9) is not reported as an
error; the function returns a record built from the short vector. -/
theorem loadCameraProperties_accepts_short_matrix_counterexample :
    ((sampleNode 1 [600, 0, 320, 0, 600, 240] "plumb_bob"
      [1 / 10, -2 / 10, 1 / 100, -1 / 100, 5 / 100]).getVector "camera_matrix/data").length
      < 9 ∧
    loadCameraProperties
      (sampleNode 1 [600, 0, 320, 0, 600, 240] "plumb_bob"
        [1 / 10, -2 / 10, 1 / 100, -1 / 100, 5 / 100])
      blankProperties =
      Except.ok
        ({ image_width := 640, image_height := 480, camera_name := "camera", fx := 600,
           fy := 600, cx := 320, cy := 240, distortion_model := "plumb_bob",
           k1 := 1 / 10, k2 := -2 / 10, k3 := 5 / 100, k4 := 0, k5 := 0, k6 := 0,
           p1 := 1 / 100, p2 := -1 / 100, min_distance_between_target_corners := 30 },
          []) := by
  refine ⟨by simp [sampleNode], ?_⟩
  simp [loadCameraProperties, sampleNode, vectorAt, bind, Except.bind, pure, Except.pure]

/-! ## The spacing passed by `main` -/

theorem truncate_eq_zero (d : ℚ) (h : |d| < 1) : truncate d = 0 := by
  have h1 := abs_lt.mp h
  unfold truncate
  split
  · rw [Int.floor_eq_iff]
    constructor
    · simpa using ‹0 ≤ d›
    · simpa using h1.2
  · rw [Int.ceil_eq_iff]
    constructor
    · simpa using h1.1
    · have : d < 0 := lt_of_not_ge ‹¬ 0 ≤ d›
      simpa using this.le

theorem doubleToInt_of_range (d : ℚ)
    (h : -2147483648 ≤ truncate d ∧ truncate d ≤ 2147483647) :
    doubleToInt d = Except.ok (truncate d) := by
  simp [doubleToInt, h]

theorem mainTargets_eq (n : NodeHandle) (grey blue orange : ColorRGBA) (p0 : Point)
    (o : Quaternion) (t : Int)
    (hg : loadColor n "grey" = Except.ok grey)
    (hb : loadColor n "blue" = Except.ok blue)
    (ho : loadColor n "orange" = Except.ok orange)
    (hp : loadPoint n "starting_target_position" = Except.ok p0)
    (hq : loadOrientation n "starting_target_orientation" = Except.ok o)
    (ht : doubleToInt (n.getDouble "distance_between_targets") = Except.ok t) :
    mainTargets n =
      Except.ok (makeLineOfTargets (n.getString "/world_frame_id")
        (n.getInt "num_targets_in_line") t 0 p0 o blue grey) := by
  simp [mainTargets, hg, hb, ho, hp, hq, ht, bind, Except.bind, pure, Except.pure]

theorem main_targets (n : NodeHandle) (u : CameraProperties)
    (q : Matrix (Fin 3) (Fin 3) ℚ → Quaternion) (scene : Scene)
    (h : main n u q = Except.ok scene) :
    mainTargets n = Except.ok scene.targets ∧ scene.camera.orientation = q rotation_matrix := by
  unfold main at h
  simp only [bind, Except.bind, pure, Except.pure] at h
  split at h
  · cases h
  · split at h
    · cases h
    · split at h
      · cases h
      · split at h
        · cases h
        · split at h
          · cases h
          · simp only [Except.ok.injEq] at h
            subst h
            simp_all

/-- The orientation given to the camera is the library conversion of the fixed matrix,
whatever orientation the parameter server holds under `starting_camera_orientation`. -/
theorem main_camera_orientation (n : NodeHandle) (u : CameraProperties)
    (q : Matrix (Fin 3) (Fin 3) ℚ → Quaternion) (scene : Scene)
    (h : main n u q = Except.ok scene) :
    scene.camera.orientation = q rotation_matrix :=
  (main_targets n u q scene h).2

theorem truncate_unique (d : ℚ) (T : Int)
    (h1 : 0 ≤ d → (T : ℚ) ≤ d ∧ d < (T : ℚ) + 1)
    (h2 : d ≤ 0 → d ≤ (T : ℚ) ∧ (T : ℚ) - 1 < d) : truncate d = T := by
  unfold truncate
  split
  · rename_i h
    exact Int.floor_eq_iff.mpr (h1 h)
  · rename_i h
    have hd : d ≤ 0 := le_of_lt (lt_of_not_ge h)
    exact Int.ceil_eq_iff.mpr ⟨(h2 hd).2, (h2 hd).1⟩

theorem truncate_spec (d : ℚ) :
    (0 ≤ d → (truncate d : ℚ) ≤ d ∧ d < (truncate d : ℚ) + 1) ∧
    (d ≤ 0 → d ≤ (truncate d : ℚ) ∧ (truncate d : ℚ) - 1 < d) := by
  unfold truncate
  constructor
  · intro h
    rw [if_pos h]
    exact ⟨Int.floor_le d, Int.lt_floor_add_one d⟩
  · intro h
    by_cases h0 : 0 ≤ d
    · have hd : d = 0 := le_antisymm h h0
      subst hd
      simp
    · rw [if_neg h0]
      refine ⟨Int.le_ceil d, ?_⟩
      have := Int.ceil_lt_add_one d
      linarith

/-- C10, amended: the spacing that `makeLineOfTargets` applies is an integer. With colours,
start position and orientation loaded, the `int` that `main` passes is the configured real
spacing `d` truncated toward zero (the integer `T` between `0` and `d` with `|d - T| < 1`),
provided `T` is an `int`. Target `k` keeps `y` and `z` of `p0` and is placed at the `x`
reached from `p0.x` by `k` successive `double` additions of `T`; that is `p0.x + k * T`
whenever every sum `p0.x + j * T`, `j ≤ k`, is a `double`, for instance when `p0.x` is an
integer and these sums have magnitude at most `2 ^ 53`. Consequently, for every `d` with
`|d| < 1`, `T = 0` and `main` creates all the targets of the line at the same position `p0`
(`p0.x` being a `double`, as every loaded value is).
The targets of a scene returned by `main` are those of its first part `mainTargets`. -/
theorem main_spacing_truncated (n : NodeHandle) (grey blue orange : ColorRGBA) (p0 : Point)
    (o : Quaternion)
    (hg : loadColor n "grey" = Except.ok grey)
    (hb : loadColor n "blue" = Except.ok blue)
    (ho : loadColor n "orange" = Except.ok orange)
    (hp : loadPoint n "starting_target_position" = Except.ok p0)
    (hq : loadOrientation n "starting_target_orientation" = Except.ok o) :
    ∃ T : Int,
      ((0 ≤ n.getDouble "distance_between_targets" →
          (T : ℚ) ≤ n.getDouble "distance_between_targets" ∧
          n.getDouble "distance_between_targets" < (T : ℚ) + 1) ∧
        (n.getDouble "distance_between_targets" ≤ 0 →
          n.getDouble "distance_between_targets" ≤ (T : ℚ) ∧
          (T : ℚ) - 1 < n.getDouble "distance_between_targets")) ∧
      (-2147483648 ≤ T ∧ T ≤ 2147483647 →
        ∃ ts, mainTargets n = Except.ok ts ∧
          ts = makeLineOfTargets (n.getString "/world_frame_id")
            (n.getInt "num_targets_in_line") T 0 p0 o blue grey ∧
          ts.length = (n.getInt "num_targets_in_line").toNat ∧
          ∀ k : Nat, (k : Int) < n.getInt "num_targets_in_line" →
            ∃ t, ts[k]? = some t ∧ t.position.y = p0.y ∧ t.position.z = p0.z ∧
              t.position.x = (fun x => roundDouble (x + (T : ℚ)))^[k] p0.x ∧
              ((∀ j : Nat, j ≤ k → roundDouble (p0.x + (j : ℚ) * (T : ℚ)) =
                  p0.x + (j : ℚ) * (T : ℚ)) →
                t.position.x = p0.x + (k : ℚ) * (T : ℚ)) ∧
              (∀ z : Int, p0.x = (z : ℚ) →
                (∀ j : Nat, j ≤ k → |z + (j : Int) * T| ≤ 9007199254740992) →
                t.position.x = p0.x + (k : ℚ) * (T : ℚ))) ∧
      (|n.getDouble "distance_between_targets"| < 1 →
        T = 0 ∧
        (roundDouble p0.x = p0.x →
          ∃ ts, mainTargets n = Except.ok ts ∧
            ts.length = (n.getInt "num_targets_in_line").toNat ∧
            ∀ t ∈ ts, t.position = p0)) ∧
      (∀ (u : CameraProperties) (q : Matrix (Fin 3) (Fin 3) ℚ → Quaternion) (scene : Scene),
        main n u q = Except.ok scene → mainTargets n = Except.ok scene.targets) := by
  refine ⟨truncate (n.getDouble "distance_between_targets"), truncate_spec _, ?_, ?_, ?_⟩
  · intro hr
    refine ⟨_, mainTargets_eq n grey blue orange p0 o _ hg hb ho hp hq
      (doubleToInt_of_range _ hr), rfl, ?_, ?_⟩
    · rw [makeLineOfTargets_eq_map]
      simp
    · intro k hk
      rw [makeLineOfTargets_eq_map]
      have hk2 : k < (n.getInt "num_targets_in_line" - 0).toNat := by omega
      rw [List.getElem?_map, List.getElem?_range hk2]
      refine ⟨_, rfl, rfl, rfl, rfl, ?_, ?_⟩
      · intro hex
        exact iterate_add_exact _ _ k hex
      · intro z hz hb
        apply iterate_add_exact
        intro j hj
        have := roundDouble_intCast (z + (j : Int) * truncate (n.getDouble
          "distance_between_targets")) (hb j hj)
        simp only [loopTarget, hz]
        push_cast at this
        exact this
  · intro hd
    have ht : truncate (n.getDouble "distance_between_targets") = 0 := truncate_eq_zero _ hd
    refine ⟨ht, ?_⟩
    intro hx
    have hr : doubleToInt (n.getDouble "distance_between_targets") = Except.ok 0 := by
      have := doubleToInt_of_range (n.getDouble "distance_between_targets") (by rw [ht]; decide)
      rwa [ht] at this
    refine ⟨_, mainTargets_eq n grey blue orange p0 o _ hg hb ho hp hq hr, ?_, ?_⟩
    · rw [makeLineOfTargets_eq_map]
      simp
    · intro t htm
      rw [makeLineOfTargets_eq_map] at htm
      simp only [List.mem_map, List.mem_range] at htm
      obtain ⟨k, _, rfl⟩ := htm
      simp only [loopTarget]
      rw [iterate_add_zero p0.x hx k]
  · intro u q scene h
    exact (main_targets n u q scene h).1

/-- Witness of C10: a configured spacing of `-5/2` is applied as `-2`, the three targets
are placed at `x = 0, -2, -4`; a configured spacing of `1/2` puts all three targets at the
start position. -/
theorem main_spacing_truncated_witness :
    (∃ ts, mainTargets backwardNode = Except.ok ts ∧ ts.length = 3 ∧
      ∀ k : Nat, k < 3 → ∃ t, ts[k]? = some t ∧ t.position.x = 0 + (k : ℚ) * (-2)) ∧
    (∃ ts, mainTargets halfSpacingNode = Except.ok ts ∧ ts.length = 3 ∧
      ∀ t ∈ ts, t.position = ⟨0, 0, 0⟩) := by
  constructor
  · obtain ⟨T, hT, hrange, -, -⟩ := main_spacing_truncated backwardNode
      ⟨1 / 2, 1 / 2, 1 / 2, 1⟩ ⟨0, 0, 1, 1⟩ ⟨1, 1 / 2, 0, 1⟩ ⟨0, 0, 0⟩ ⟨0, 0, 0, 1⟩
      (by simp [loadColor, backwardNode, sampleNode, vectorAt, bind, Except.bind, pure,
        Except.pure])
      (by simp [loadColor, backwardNode, sampleNode, vectorAt, bind, Except.bind, pure,
        Except.pure])
      (by simp [loadColor, backwardNode, sampleNode, vectorAt, bind, Except.bind, pure,
        Except.pure])
      (by simp [loadPoint, backwardNode, sampleNode, vectorAt, bind, Except.bind, pure,
        Except.pure])
      (by simp [loadOrientation, backwardNode, sampleNode, vectorAt, bind, Except.bind, pure,
        Except.pure])
    have hd : backwardNode.getDouble "distance_between_targets" = -5 / 2 := by
      simp [backwardNode, sampleNode]
    have hn : backwardNode.getInt "num_targets_in_line" = 3 := by
      simp [backwardNode, sampleNode]
    rw [hd] at hT
    have hT2 := hT.2 (by norm_num)
    have h1 : (-3 : ℚ) < (T : ℚ) := by linarith [hT2.1]
    have h2 : (T : ℚ) < -1 := by linarith [hT2.2]
    have h1' : (-3 : Int) < T := by exact_mod_cast h1
    have h2' : T < -1 := by exact_mod_cast h2
    have hTv : T = -2 := by omega
    subst hTv
    obtain ⟨ts, hts, -, hlen, hpos⟩ := hrange (by decide)
    rw [hn] at hlen hpos
    refine ⟨ts, hts, by simpa using hlen, ?_⟩
    intro k hk
    obtain ⟨t, ht, -, -, -, -, hint⟩ := hpos k (by exact_mod_cast hk)
    refine ⟨t, ht, ?_⟩
    have := hint 0 (by simp) (by
      intro j hj
      rw [abs_le]
      constructor <;> omega)
    simpa using this
  · have hd : |halfSpacingNode.getDouble "distance_between_targets"| < 1 := by
      simp only [halfSpacingNode, sampleNode, if_true]
      rw [abs_lt]
      constructor <;> norm_num
    obtain ⟨T, -, -, hsmall, -⟩ := main_spacing_truncated halfSpacingNode
      ⟨1 / 2, 1 / 2, 1 / 2, 1⟩ ⟨0, 0, 1, 1⟩ ⟨1, 1 / 2, 0, 1⟩ ⟨0, 0, 0⟩ ⟨0, 0, 0, 1⟩
      (by simp [loadColor, halfSpacingNode, sampleNode, vectorAt, bind, Except.bind, pure,
        Except.pure])
      (by simp [loadColor, halfSpacingNode, sampleNode, vectorAt, bind, Except.bind, pure,
        Except.pure])
      (by simp [loadColor, halfSpacingNode, sampleNode, vectorAt, bind, Except.bind, pure,
        Except.pure])
      (by simp [loadPoint, halfSpacingNode, sampleNode, vectorAt, bind, Except.bind, pure,
        Except.pure])
      (by simp [loadOrientation, halfSpacingNode, sampleNode, vectorAt, bind, Except.bind,
        pure, Except.pure])
    obtain ⟨ts, hts, hlen, hall⟩ := (hsmall hd).2 roundDouble_zero
    have hn : halfSpacingNode.getInt "num_targets_in_line" = 3 := by
      simp [halfSpacingNode, sampleNode]
    rw [hn] at hlen
    exact ⟨ts, hts, by simpa using hlen, hall⟩

/-- C10 as stated fails in two ways. With the first target at `x = 2 ^ 53` and a configured
spacing of `1` (truncated to `1`), the `double` addition `2 ^ 53 + 1` rounds back to
`2 ^ 53`: all three targets are created at `x = 2 ^ 53`, not at `2 ^ 53 + k`. With a
configured spacing of `3 * 10 ^ 9` the truncated value is not an `int`: the conversion at the
call is undefined and no position `p0.x + k * (3 * 10 ^ 9)` results from it. -/
theorem main_spacing_truncated_counterexample :
    (farNode.getDouble "distance_between_targets" = 1 ∧
      truncate (farNode.getDouble "distance_between_targets") = 1 ∧
      loadPoint farNode "starting_target_position" =
        Except.ok ⟨9007199254740992, 0, 0⟩ ∧
      (mainTargets farNode).toOption.map (List.map (fun t => t.position.x)) =
        some [9007199254740992, 9007199254740992, 9007199254740992] ∧
      ¬ ∀ (ts : List Target) (k : Nat) (t : Target),
          mainTargets farNode = Except.ok ts → ts[k]? = some t →
            t.position.x = 9007199254740992 + (k : ℚ) * 1) ∧
    (wideSpacingNode.getDouble "distance_between_targets" = 3000000000 ∧
      truncate (wideSpacingNode.getDouble "distance_between_targets") = 3000000000 ∧
      mainTargets wideSpacingNode = Except.error Fault.intConversion) := by
  have hfd : farNode.getDouble "distance_between_targets" = 1 := by
    simp [farNode, sampleNode]
  have hft : truncate (farNode.getDouble "distance_between_targets") = 1 := by
    rw [hfd]
    simp [truncate]
  have hfp : loadPoint farNode "starting_target_position" =
      Except.ok ⟨9007199254740992, 0, 0⟩ := by
    simp [loadPoint, farNode, sampleNode, vectorAt, bind, Except.bind, pure, Except.pure]
  have hm := mainTargets_eq farNode
    ⟨1 / 2, 1 / 2, 1 / 2, 1⟩ ⟨0, 0, 1, 1⟩ ⟨1, 1 / 2, 0, 1⟩ ⟨9007199254740992, 0, 0⟩
    ⟨0, 0, 0, 1⟩ 1
    (by simp [loadColor, farNode, sampleNode, vectorAt, bind, Except.bind, pure, Except.pure])
    (by simp [loadColor, farNode, sampleNode, vectorAt, bind, Except.bind, pure, Except.pure])
    (by simp [loadColor, farNode, sampleNode, vectorAt, bind, Except.bind, pure, Except.pure])
    hfp
    (by simp [loadOrientation, farNode, sampleNode, vectorAt, bind, Except.bind, pure,
      Except.pure])
    (by
      have := doubleToInt_of_range (farNode.getDouble "distance_between_targets")
        (by rw [hft]; decide)
      rwa [hft] at this)
  have h3 : (farNode.getInt "num_targets_in_line" - 0).toNat = 3 := by
    simp [farNode, sampleNode]
  have hstep : roundDouble ((9007199254740992 : ℚ) + ((1 : Int) : ℚ)) = 9007199254740992 := by
    have := roundDouble_far
    simpa using this
  have hxs : (mainTargets farNode).toOption.map (List.map (fun t => t.position.x)) =
      some [9007199254740992, 9007199254740992, 9007199254740992] := by
    rw [hm, makeLineOfTargets_eq_map, h3]
    simp only [Except.toOption, Option.map_some', List.map_map, List.range_succ,
      List.range_zero, List.nil_append, List.cons_append, List.map_cons, List.map_nil,
      Function.comp, loopTarget, Function.iterate_succ_apply', Function.iterate_zero, id,
      hstep]
  have hwd : wideSpacingNode.getDouble "distance_between_targets" = 3000000000 := by
    simp [wideSpacingNode, sampleNode]
  have hwt' : truncate (3000000000 : ℚ) = 3000000000 := by
    have : ((3000000000 : ℚ)) = ((3000000000 : Int) : ℚ) := by norm_num
    rw [truncate, if_pos (by norm_num), this, Int.floor_intCast]
  have hwt : truncate (wideSpacingNode.getDouble "distance_between_targets") = 3000000000 := by
    rw [hwd, hwt']
  refine ⟨⟨hfd, hft, hfp, hxs, ?_⟩, hwd, hwt, ?_⟩
  · intro hall
    rw [hm] at hxs
    have h1 := hall _ 1 ⟨"world", "tag1", ⟨9007199254740992, 0, 0⟩, ⟨0, 0, 0, 1⟩,
      ⟨1 / 2, 1 / 2, 1 / 2, 1⟩, 1 / 10, InteractionMode.MOVE_3D⟩ hm (by
        rw [makeLineOfTargets_eq_map, h3]
        simp only [List.range_succ, List.range_zero, List.nil_append, List.cons_append,
          List.map_cons, List.map_nil, loopTarget, Function.iterate_succ_apply',
          Function.iterate_zero, id, hstep]
        simp [farNode, sampleNode]
        decide)
    norm_num at h1
  · simp [mainTargets, loadColor, loadPoint, loadOrientation, doubleToInt, hwt',
      wideSpacingNode, sampleNode, vectorAt, bind, Except.bind, pure, Except.pure]

/-- C2 at a failing input: with the configured spacing `1/2`, start position `(0, 0, 0)`
and three targets, `main` creates `tag0`, `tag1` and `tag2` all at `x = 0`; the target with
index `1` is not at `0 + 1 * (1/2)`. -/
theorem mainTargets_half_spacing :
    halfSpacingNode.getDouble "distance_between_targets" = 1 / 2 ∧
    loadPoint halfSpacingNode "starting_target_position" = Except.ok ⟨0, 0, 0⟩ ∧
    mainTargets halfSpacingNode =
      Except.ok
        [{ frame_id := "world", name := "tag0", position := ⟨0, 0, 0⟩,
           orientation := ⟨0, 0, 0, 1⟩, color := ⟨0, 0, 1, 1⟩, scale := 1 / 10,
           interaction_mode := InteractionMode.MOVE_3D },
         { frame_id := "world", name := "tag1", position := ⟨0, 0, 0⟩,
           orientation := ⟨0, 0, 0, 1⟩, color := ⟨1 / 2, 1 / 2, 1 / 2, 1⟩, scale := 1 / 10,
           interaction_mode := InteractionMode.MOVE_3D },
         { frame_id := "world", name := "tag2", position := ⟨0, 0, 0⟩,
           orientation := ⟨0, 0, 0, 1⟩, color := ⟨1 / 2, 1 / 2, 1 / 2, 1⟩, scale := 1 / 10,
           interaction_mode := InteractionMode.MOVE_3D }] ∧
    ¬ ∀ (ts : List Target) (k : Nat) (t : Target),
        mainTargets halfSpacingNode = Except.ok ts → ts[k]? = some t →
          t.position.x = 0 + (k : ℚ) * (1 / 2) := by
  have hd : |halfSpacingNode.getDouble "distance_between_targets"| < 1 := by
    simp only [halfSpacingNode, sampleNode, if_true]
    rw [abs_lt]
    constructor <;> norm_num
  have ht : doubleToInt (halfSpacingNode.getDouble "distance_between_targets") =
      Except.ok 0 := by
    have := doubleToInt_of_range (halfSpacingNode.getDouble "distance_between_targets")
      (by rw [truncate_eq_zero _ hd]; decide)
    rwa [truncate_eq_zero _ hd] at this
  have hp : loadPoint halfSpacingNode "starting_target_position" = Except.ok ⟨0, 0, 0⟩ := by
    simp [loadPoint, halfSpacingNode, sampleNode, vectorAt, bind, Except.bind, pure,
      Except.pure]
  have hm := mainTargets_eq halfSpacingNode
    ⟨1 / 2, 1 / 2, 1 / 2, 1⟩ ⟨0, 0, 1, 1⟩ ⟨1, 1 / 2, 0, 1⟩ ⟨0, 0, 0⟩ ⟨0, 0, 0, 1⟩ 0
    (by simp [loadColor, halfSpacingNode, sampleNode, vectorAt, bind, Except.bind, pure,
      Except.pure])
    (by simp [loadColor, halfSpacingNode, sampleNode, vectorAt, bind, Except.bind, pure,
      Except.pure])
    (by simp [loadColor, halfSpacingNode, sampleNode, vectorAt, bind, Except.bind, pure,
      Except.pure])
    hp
    (by simp [loadOrientation, halfSpacingNode, sampleNode, vectorAt, bind, Except.bind, pure,
      Except.pure])
    ht
  have hl : mainTargets halfSpacingNode =
      Except.ok
        [{ frame_id := "world", name := "tag0", position := ⟨0, 0, 0⟩,
           orientation := ⟨0, 0, 0, 1⟩, color := ⟨0, 0, 1, 1⟩, scale := 1 / 10,
           interaction_mode := InteractionMode.MOVE_3D },
         { frame_id := "world", name := "tag1", position := ⟨0, 0, 0⟩,
           orientation := ⟨0, 0, 0, 1⟩, color := ⟨1 / 2, 1 / 2, 1 / 2, 1⟩, scale := 1 / 10,
           interaction_mode := InteractionMode.MOVE_3D },
         { frame_id := "world", name := "tag2", position := ⟨0, 0, 0⟩,
           orientation := ⟨0, 0, 0, 1⟩, color := ⟨1 / 2, 1 / 2, 1 / 2, 1⟩, scale := 1 / 10,
           interaction_mode := InteractionMode.MOVE_3D }] := by
    rw [hm, makeLineOfTargets_eq_map]
    have h3 : (halfSpacingNode.getInt "num_targets_in_line" - 0).toNat = 3 := by
      simp [halfSpacingNode, sampleNode]
    have hw : halfSpacingNode.getString "/world_frame_id" = "world" := by
      simp [halfSpacingNode, sampleNode]
    rw [h3, hw]
    simp [List.range_succ, loopTarget]
    decide
  refine ⟨by simp [halfSpacingNode, sampleNode], hp, hl, ?_⟩
  intro hall
  have := hall _ 1 _ hl rfl
  norm_num at this

/-! ## The orientation of the camera -/

end RvizSimulator
